import Mathlib

/-!
Shallow embedding of `sys-doctor-v1.py`, a Linux system-health analyzer
(CPU / GPU / RAM / Disk).  External utility invocations (`run(cmd)`) are
modelled by an environment record holding the stripped standard output of
each command the script issues; Python floats are modelled as rationals.
The Python string operations used by the script are modelled as
kernel-computable functions on character lists.
-/

/-! ### Python string primitives -/

/-- Characters Python treats as whitespace for `str.strip` / `str.split`. -/
def isPyWs (c : Char) : Bool :=
  c = ' ' || c = '\t' || c = '\n' || c = '\r' || c = '\x0b' || c = '\x0c'

/-- Drop trailing Python whitespace from a character list. -/
def dropTrailWs (l : List Char) : List Char :=
  (l.reverse.dropWhile isPyWs).reverse

/-- Drop leading and trailing Python whitespace (Python `str.strip()`). -/
def pyStripChars (l : List Char) : List Char :=
  dropTrailWs (l.dropWhile isPyWs)

/-- Python `s.strip()`. -/
def pyStrip (s : String) : String :=
  String.mk (pyStripChars s.data)

/-- Helper for whitespace splitting: accumulates the current word reversed. -/
def splitWsAux (acc : List Char) : List Char → List (List Char)
  | [] => if acc.isEmpty then [] else [acc.reverse]
  | c :: rest =>
    if isPyWs c then
      if acc.isEmpty then splitWsAux [] rest
      else acc.reverse :: splitWsAux [] rest
    else splitWsAux (c :: acc) rest

/-- Python `s.split()` with no argument: split on whitespace runs, never
producing empty words. -/
def pySplitWs (s : String) : List String :=
  (splitWsAux [] s.data).map String.mk

/-- Python `s.split(":", 1)`: at most one split, at the first colon. -/
def splitColon1 (s : String) : List String :=
  let p := s.data.span (fun c => !(c = ':'))
  match p.2 with
  | [] => [s]
  | _ :: after => [String.mk p.1, String.mk after]

/-- Helper for `splitlines`: split on a newline, keeping inner empty lines. -/
def splitNLAux (acc : List Char) : List Char → List (List Char)
  | [] => if acc.isEmpty then [] else [acc.reverse]
  | c :: rest =>
    if c = '\n' then acc.reverse :: splitNLAux [] rest
    else splitNLAux (c :: acc) rest

/-- Python `s.splitlines()` for newline-separated text: no trailing empty
line is produced. -/
def pySplitlines (s : String) : List String :=
  (splitNLAux [] s.data).map String.mk

/-- Substring test on character lists (Python `pat in s`). -/
def infixChars (pat : List Char) : List Char → Bool
  | [] => pat.isEmpty
  | c :: rest => pat.isPrefixOf (c :: rest) || infixChars pat rest

/-- Python `pat in s` for strings. -/
def containsSub (s pat : String) : Bool :=
  infixChars pat.data s.data

/-- Python `s.lower()` (the script only meets ASCII utility output). -/
def pyLower (s : String) : String :=
  String.mk (s.data.map Char.toLower)

/-- Value of a decimal digit string (0 when empty); total helper. -/
def digitVal (ds : List Char) : Nat :=
  ds.foldl (fun a c => a * 10 + (c.toNat - 48)) 0

/-- Parse a non-empty all-digit character list, else `none`. -/
def digitsToNat? (ds : List Char) : Option Nat :=
  if ds.isEmpty then none
  else if ds.all Char.isDigit then some (digitVal ds) else none

/-- Python `int(s)`: strips whitespace, optional sign, decimal digits;
raises `ValueError` (here `none`) otherwise. -/
def pyInt (s : String) : Option Int :=
  match pyStripChars s.data with
  | '-' :: ds => (digitsToNat? ds).map (fun n => -(n : Int))
  | '+' :: ds => (digitsToNat? ds).map (fun n => (n : Int))
  | ds => (digitsToNat? ds).map (fun n => (n : Int))

/-- Unsigned decimal literal, with an optional fractional part. -/
def pyFloatBody (ds : List Char) : Option ℚ :=
  let p := ds.span (fun c => !(c = '.'))
  match p.2 with
  | [] => (digitsToNat? ds).map (fun n => (n : ℚ))
  | _ :: frac =>
    if p.1.isEmpty && frac.isEmpty then none
    else if (p.1 ++ frac).all Char.isDigit then
      some ((digitVal p.1 : ℚ) + mkRat (digitVal frac) (10 ^ frac.length))
    else none

/-- Python `float(s)` restricted to the decimal forms the probed utilities
emit (optional sign, digits, optional fractional digits); `none` models a
`ValueError`. -/
def pyFloat (s : String) : Option ℚ :=
  match pyStripChars s.data with
  | '-' :: ds => (pyFloatBody ds).map (fun q => -q)
  | '+' :: ds => pyFloatBody ds
  | ds => pyFloatBody ds

/-! ### Environment: stdout of each external command, tool availability -/

/-- One run of the script, as the script observes it: the stripped stdout of
every `run(...)` command it may issue, `shutil.which` availability, and the
interactive authorization answer for installing missing tools. -/
structure Env where
  /-- stdout of `lscpu | grep 'Model name'`. -/
  lscpuModel : String
  /-- stdout of `lscpu | grep '^CPU(s):'`. -/
  lscpuCpus : String
  /-- stdout of `lscpu | grep 'max MHz'`. -/
  lscpuMaxMhz : String
  /-- stdout of `lspci | egrep -i 'vga|3d|display'`. -/
  lspci : String
  /-- stdout of `glxinfo 2>/dev/null | grep 'OpenGL renderer'`. -/
  glxinfo : String
  /-- stdout of `grep MemTotal /proc/meminfo`. -/
  meminfo : String
  /-- stdout of `lsblk -nd -o NAME`. -/
  lsblk : String
  /-- stdout of `smartctl -H /dev/<d>`, per device name `d`. -/
  smartctl : String → String
  /-- `shutil.which(c) is not None`, per executable `c`. -/
  which : String → Bool
  /-- answer to `Install missing tools now? [y/N]` (the `ask` helper). -/
  installAuthorized : Bool

/-! ### Tool registry and environment preparation -/

/-- The `TOOLS_BY_TEST` table: executables and their packages per test,
with `.get(t, {})` defaulting for unknown keys. -/
def TOOLS_BY_TEST (t : String) : List (String × String) :=
  if t = "cpu" then [("lscpu", "util-linux")]
  else if t = "gpu" then
    [("lspci", "pciutils"), ("lsmod", "kmod"), ("glxinfo", "mesa-utils")]
  else if t = "ram" then []
  else if t = "disk" then
    [("lsblk", "util-linux"), ("smartctl", "smartmontools")]
  else []

/-- Insertion-ordered dict assignment `d[k] = v`. -/
def dictSet : List (String × String) → String → String → List (String × String)
  | [], k, v => [(k, v)]
  | (k0, v0) :: rest, k, v =>
    if k0 = k then (k0, v) :: rest else (k0, v0) :: dictSet rest k v

/-- Python `d.update(d2)` on insertion-ordered dicts. -/
def dictUpdate (d d2 : List (String × String)) : List (String × String) :=
  d2.foldl (fun acc kv => dictSet acc kv.1 kv.2) d

/-- The `needed` dict built at the top of `prepare_environment`. -/
def neededTools (tests : List String) : List (String × String) :=
  tests.foldl (fun acc t => dictUpdate acc (TOOLS_BY_TEST t)) []

/-- The `missing` dict comprehension of `prepare_environment`. -/
def missingTools (tests : List String) (which : String → Bool) :
    List (String × String) :=
  (neededTools tests).filter (fun cp => !(which cp.1))

/-- `prepare_environment(tests)`.  The second component records each
invocation of the installer (`apt install -y ...`) with the set of package
names passed to it, modelling Python's `set(missing.values())`. -/
def prepare_environment (tests : List String) (env : Env) :
    Bool × List (Finset String) :=
  let missing := missingTools tests env.which
  if missing = [] then (true, [])
  else if env.installAuthorized then
    (true, [((missing.map Prod.snd).toFinset : Finset String)])
  else (false, [])

/-! ### Collectors and scorers -/

/-- `cpu_info()`: `.error ()` models an uncaught `IndexError`/`ValueError`
(no colon in the model line, empty core-count line, non-numeric token). -/
def cpu_info (env : Env) : Except Unit (String × Int × ℚ) :=
  match splitColon1 env.lscpuModel with
  | [_, afterColon] =>
    let model := pyStrip afterColon
    match (pySplitWs env.lscpuCpus).getLast? with
    | none => .error ()
    | some tok =>
      match pyInt tok with
      | none => .error ()
      | some cores =>
        if env.lscpuMaxMhz = "" then .ok (model, cores, 0)
        else
          match (pySplitWs env.lscpuMaxMhz).getLast? with
          | none => .error ()
          | some tok2 =>
            match pyFloat tok2 with
            | none => .error ()
            | some mhz => .ok (model, cores, mhz)
  | _ => .error ()

/-- `cpu_score(cores, mhz)`. -/
def cpu_score (cores : Int) (mhz : ℚ) : Int :=
  min ((if cores ≥ 4 then 10 else 5) + (if mhz ≥ 3000 then 10 else 5)) 25

/-- `gpu_info()`: the two command outputs, verbatim. -/
def gpu_info (env : Env) : String × String :=
  (env.lspci, env.glxinfo)

/-- `gpu_score(gpu, renderer)`. -/
def gpu_score (gpu renderer : String) : Int :=
  let base : Int :=
    if containsSub (pyLower gpu) "nvidia" || containsSub (pyLower gpu) "amd"
    then 10
    else if containsSub (pyLower gpu) "intel" then 7
    else 3
  let rend : Int :=
    if renderer ≠ "" ∧ containsSub (pyLower renderer) "llvmpipe" = false
    then 10 else 3
  min (base + rend) 25

/-- Banker's rounding to an integer, as Python `round` does on exact
halves (the script's values are modelled as exact rationals). -/
def roundHalfEven (x : ℚ) : Int :=
  let f := ⌊x⌋
  if x - f < 1 / 2 then f
  else if 1 / 2 < x - f then f + 1
  else if f % 2 = 0 then f else f + 1

/-- Python `round(x, 1)`. -/
def pyRound1 (x : ℚ) : ℚ :=
  (roundHalfEven (x * 10) : ℚ) / 10

/-- `ram_info()`: `MemTotal` kB converted to GiB, rounded to one decimal;
`.error ()` models an uncaught `IndexError`/`ValueError`. -/
def ram_info (env : Env) : Except Unit ℚ :=
  match (pySplitWs env.meminfo).get? 1 with
  | none => .error ()
  | some tok =>
    match pyInt tok with
    | none => .error ()
    | some kb => .ok (pyRound1 ((kb : ℚ) / 1024 / 1024))

/-- `ram_score(gb)`. -/
def ram_score (gb : ℚ) : Int :=
  if gb ≥ 16 then 20 else if gb ≥ 8 then 13 else if gb ≥ 4 then 8 else 4

/-- Loop body of `disk_health()` over the device-name list: "Failing" on
the first device whose SMART output mentions FAILED. -/
def disk_healthGo (smart : String → String) : List String → String
  | [] => "Healthy"
  | d :: rest =>
    if containsSub (smart d) "FAILED" then "Failing"
    else disk_healthGo smart rest

/-- `disk_health()`. -/
def disk_health (env : Env) : String :=
  disk_healthGo env.smartctl (pySplitlines env.lsblk)

/-- `disk_score(status)`. -/
def disk_score (status : String) : Int :=
  if status = "Healthy" then 20 else 8

/-! ### Suggestion engine -/

/-- The CPU upgrade tip. -/
def cpuTip : String := "CPU is aging. Consider upgrading in the future."

/-- The GPU upgrade tip. -/
def gpuTip : String := "GPU is outdated. Upgrade recommended for graphics."

/-- The RAM upgrade tip. -/
def ramTip : String := "Upgrade RAM to at least 8–16 GB."

/-- The disk replacement tip. -/
def diskTip : String := "Disk health warning. Backup data and replace disk."

/-- The fallback tip produced when no threshold fires. -/
def balancedTip : String := "System is well balanced. No upgrade needed now."

/-- `ai_suggestions(cpu, gpu, ram, disk)`. -/
def ai_suggestions (cpu gpu ram disk : Int) : List String :=
  let tips : List String := if cpu < 12 then [cpuTip] else []
  let tips := tips ++ (if gpu < 12 then [gpuTip] else [])
  let tips := tips ++ (if ram < 13 then [ramTip] else [])
  let tips := tips ++ (if disk < 15 then [diskTip] else [])
  if tips = [] then [balancedTip] else tips

/-! ### Main pipeline -/

/-- What a completed run prints: the report lines, the total score, and the
suggestion list. -/
structure MainResult where
  report : List String
  total : Int
  tips : List String
deriving DecidableEq

/-- The `if "cpu" in tests:` block of `main`: score and report line, or the
uncaught collector exception. -/
def cpuStep (tests : List String) (env : Env) : Except Unit (Int × List String) :=
  if "cpu" ∈ tests then
    match cpu_info env with
    | .error e => .error e
    | .ok (model, cores, mhz) =>
      let s := cpu_score cores mhz
      .ok (s, ["CPU : " ++ model ++ " (" ++ toString s ++ "/25)"])
  else .ok (0, [])

/-- The `if "gpu" in tests:` block of `main` (never raises). -/
def gpuStep (tests : List String) (env : Env) : Int × List String :=
  if "gpu" ∈ tests then
    let p := gpu_info env
    let s := gpu_score p.1 p.2
    (s, ["GPU : " ++ toString s ++ "/25"])
  else (0, [])

/-- Display form of the one-decimal non-negative GiB value in the RAM
report line (Python prints the float `16.0` as "16.0"). -/
def ratStr1 (q : ℚ) : String :=
  toString ((⌊q * 10⌋ : Int) / 10) ++ "." ++ toString ((⌊q * 10⌋ : Int) % 10)

/-- The `if "ram" in tests:` block of `main`. -/
def ramStep (tests : List String) (env : Env) : Except Unit (Int × List String) :=
  if "ram" ∈ tests then
    match ram_info env with
    | .error e => .error e
    | .ok gb =>
      let s := ram_score gb
      .ok (s, ["RAM : " ++ ratStr1 gb ++ " GB (" ++ toString s ++ "/20)"])
  else .ok (0, [])

/-- The `if "disk" in tests and ready:` block of `main`: the only block
gated on the readiness flag. -/
def diskStep (tests : List String) (env : Env) (ready : Bool) : Int × List String :=
  if "disk" ∈ tests ∧ ready = true then
    let status := disk_health env
    let s := disk_score status
    (s, ["Disk: " ++ status ++ " (" ++ toString s ++ "/20)"])
  else (0, [])

/-- `main()` for a given test selection: `.ok none` is the early
"Invalid choice" return, `.error ()` an uncaught exception escaping a
collector, `.ok (some r)` a completed run.  Untested subsystems keep their
initial score 0 and that 0 is passed to `ai_suggestions`. -/
def mainRun (tests : List String) (env : Env) : Except Unit (Option MainResult) :=
  if tests = [] then .ok none
  else
    let ready := (prepare_environment tests env).1
    match cpuStep tests env with
    | .error e => .error e
    | .ok (cpu_s, repCpu) =>
      match ramStep tests env with
      | .error e => .error e
      | .ok (ram_s, repRam) =>
        let gp := gpuStep tests env
        let dp := diskStep tests env ready
        .ok (some
          { report := repCpu ++ gp.2 ++ repRam ++ dp.2
            total := cpu_s + gp.1 + ram_s + dp.1
            tips := ai_suggestions cpu_s gp.1 ram_s dp.1 })

/-! ### Concrete runs used to settle the end-to-end claims -/

/-- Environment of the end-to-end scenario: 8-core 3600 MHz CPU, 16 GiB of
RAM, every tool available. -/
def envC2 : Env where
  lscpuModel := "Model name:            Example CPU"
  lscpuCpus := "CPU(s):                8"
  lscpuMaxMhz := "CPU max MHz:           3600.0000"
  lspci := ""
  glxinfo := ""
  meminfo := "MemTotal:       16777216 kB"
  lsblk := ""
  smartctl := fun _ => ""
  which := fun _ => true
  installAuthorized := false

/-- Environment where `lscpu` is absent and installation is declined: each
`lscpu` pipeline yields the shell's not-found message on standard error,
which `subprocess.getoutput` captures. -/
def envNF : Env where
  lscpuModel := "/bin/sh: 1: lscpu: not found"
  lscpuCpus := "/bin/sh: 1: lscpu: not found"
  lscpuMaxMhz := "/bin/sh: 1: lscpu: not found"
  lspci := ""
  glxinfo := ""
  meminfo := "MemTotal:       16777216 kB"
  lsblk := ""
  smartctl := fun _ => ""
  which := fun c => !(c = "lscpu")
  installAuthorized := false

/-- Environment where the `lscpu` grep pipelines find nothing (empty
output) while the RAM pseudo-file is intact. -/
def envBadCpu : Env where
  lscpuModel := ""
  lscpuCpus := ""
  lscpuMaxMhz := ""
  lspci := ""
  glxinfo := ""
  meminfo := "MemTotal:       16777216 kB"
  lsblk := ""
  smartctl := fun _ => ""
  which := fun _ => true
  installAuthorized := false

/-- Environment with no tool available at all, installation authorized. -/
def envW9 : Env where
  lscpuModel := ""
  lscpuCpus := ""
  lscpuMaxMhz := ""
  lspci := ""
  glxinfo := ""
  meminfo := ""
  lsblk := ""
  smartctl := fun _ => ""
  which := fun _ => false
  installAuthorized := true

/-! ### Theorems -/

/-- C1: for every four scores, `ai_suggestions` returns the single fallback
tip iff cpu ≥ 12, gpu ≥ 12, ram ≥ 13 and disk ≥ 15 all hold; otherwise it
returns exactly one tip per failing threshold in the fixed order CPU, GPU,
RAM, Disk; and the result is never empty. -/
theorem ai_suggestions_spec (c g r d : Int) :
    ai_suggestions c g r d ≠ [] ∧
    (ai_suggestions c g r d = [balancedTip] ↔ 12 ≤ c ∧ 12 ≤ g ∧ 13 ≤ r ∧ 15 ≤ d) ∧
    (ai_suggestions c g r d = [balancedTip] ∨
      ai_suggestions c g r d =
        (if c < 12 then [cpuTip] else []) ++ (if g < 12 then [gpuTip] else []) ++
        (if r < 13 then [ramTip] else []) ++ (if d < 15 then [diskTip] else [])) := by
  simp only [ai_suggestions]
  split_ifs <;> simp_all [cpuTip, gpuTip, ramTip, diskTip, balancedTip]

/-- C6: `cpu_score` is 20 whenever cores ≥ 4 and mhz ≥ 3000, and 10
whenever cores < 4 and mhz < 3000. -/
theorem cpu_score_thresholds (c : Int) (f : ℚ) :
    (4 ≤ c → 3000 ≤ f → cpu_score c f = 20) ∧
    (c < 4 → f < 3000 → cpu_score c f = 10) := by
  refine ⟨fun h1 h2 => ?_, fun h1 h2 => ?_⟩
  · simp only [cpu_score]; rw [if_pos h1, if_pos h2]; decide
  · simp only [cpu_score]; rw [if_neg (not_le.mpr h1), if_neg (not_le.mpr h2)]; decide

/-- Witness for C6 at cores = 8, mhz = 3600 and cores = 2, mhz = 5. -/
theorem cpu_score_thresholds_w :
    cpu_score 8 3600 = 20 ∧ cpu_score 2 5 = 10 :=
  ⟨(cpu_score_thresholds 8 3600).1 (by decide) (by decide),
   (cpu_score_thresholds 2 5).2 (by decide) (by decide)⟩

/-- C7: `ram_score` is monotonically non-decreasing, and takes the values
4, 8, 13, 20 at the boundary inputs 0, 4, 8, 16. -/
theorem ram_score_monotone_boundaries :
    (∀ a b : ℚ, a ≤ b → ram_score a ≤ ram_score b) ∧
    ram_score 0 = 4 ∧ ram_score 4 = 8 ∧ ram_score 8 = 13 ∧ ram_score 16 = 20 := by
  refine ⟨fun a b hab => ?_, by decide, by decide, by decide, by decide⟩
  simp only [ram_score, ge_iff_le]
  split_ifs <;> first | decide | linarith

/-- Witness for C7 at 3 ≤ 12. -/
theorem ram_score_monotone_boundaries_w :
    ram_score 3 ≤ ram_score 12 ∧ ram_score 0 = 4 :=
  ⟨ram_score_monotone_boundaries.1 3 12 (by decide),
   ram_score_monotone_boundaries.2.1⟩

/-- C8: the disk health loop returns "Failing" exactly when some device's
SMART output contains FAILED (already at the first such device), and
"Healthy" otherwise, in particular on an empty device list. -/
theorem disk_health_spec (smart : String → String) (disks : List String) :
    (disk_healthGo smart disks = "Failing" ↔
      disks.any (fun d => containsSub (smart d) "FAILED") = true) ∧
    (disk_healthGo smart disks = "Healthy" ↔
      disks.any (fun d => containsSub (smart d) "FAILED") = false) ∧
    disk_healthGo smart [] = "Healthy" ∧
    (∀ d rest, containsSub (smart d) "FAILED" = true →
      disk_healthGo smart (d :: rest) = "Failing") := by
  refine ⟨?_, ?_, rfl, fun d rest h => by simp [disk_healthGo, h]⟩
  · induction disks with
    | nil => simp [disk_healthGo]
    | cons d rest ih =>
      by_cases h : containsSub (smart d) "FAILED" = true <;>
        simp_all [disk_healthGo, h]
  · induction disks with
    | nil => simp [disk_healthGo]
    | cons d rest ih =>
      by_cases h : containsSub (smart d) "FAILED" = true <;>
        simp_all [disk_healthGo, h]

/-- Witness for C8: a failing first device short-circuits; the empty list
is healthy. -/
theorem disk_health_spec_w :
    disk_healthGo (fun _ => "SMART overall-health self-assessment test result: FAILED!")
      ["sda", "sdb"] = "Failing" ∧
    disk_healthGo (fun _ => "") [] = "Healthy" :=
  ⟨(disk_health_spec (fun _ => "SMART overall-health self-assessment test result: FAILED!")
      ["sda", "sdb"]).2.2.2 "sda" ["sdb"] (by decide),
   (disk_health_spec (fun _ => "") []).2.2.1⟩

/-- C9: `prepare_environment` returns true with no installer call when
nothing is missing; false with no installer call when missing and not
authorized; true after exactly one installer call with the deduplicated
package set when missing and authorized. -/
theorem prepare_environment_spec (tests : List String) (env : Env) :
    (missingTools tests env.which = [] →
      prepare_environment tests env = (true, [])) ∧
    (missingTools tests env.which ≠ [] → env.installAuthorized = false →
      prepare_environment tests env = (false, [])) ∧
    (missingTools tests env.which ≠ [] → env.installAuthorized = true →
      prepare_environment tests env =
        (true, [((missingTools tests env.which).map Prod.snd).toFinset])) := by
  refine ⟨fun h => ?_, fun h ha => ?_, fun h ha => ?_⟩
  · simp [prepare_environment, h]
  · simp [prepare_environment, h, ha]
  · simp [prepare_environment, h, ha]

/-- Witness for C9: with every tool missing and installation authorized,
the disk selection installs the set of its two packages. -/
theorem prepare_environment_spec_w :
    missingTools ["disk"] envW9.which ≠ [] ∧ envW9.installAuthorized = true ∧
    prepare_environment ["disk"] envW9 =
      (true, [((missingTools ["disk"] envW9.which).map Prod.snd).toFinset]) :=
  ⟨by decide, rfl, (prepare_environment_spec ["disk"] envW9).2.2 (by decide) rfl⟩

/-- C10: both components of `gpu_score` contribute at least 3, so the score
is at least 6 and the stated lower bound 3 is never attained. -/
theorem gpu_score_min_six (g r : String) :
    6 ≤ gpu_score g r ∧ gpu_score g r ≠ 3 := by
  simp only [gpu_score]
  split_ifs <;> decide

/-- C3 counterexample: an nvidia description with a non-empty renderer not
containing llvmpipe scores 20, not 25 as claimed. -/
theorem gpu_score_nvidia_not_25 :
    containsSub (pyLower "NVIDIA Corporation AD104") "nvidia" = true ∧
    ("NVIDIA GeForce RTX 4070" : String) ≠ "" ∧
    containsSub (pyLower "NVIDIA GeForce RTX 4070") "llvmpipe" = false ∧
    gpu_score "NVIDIA Corporation AD104" "NVIDIA GeForce RTX 4070" = 20 ∧
    gpu_score "NVIDIA Corporation AD104" "NVIDIA GeForce RTX 4070" ≠ 25 := by
  decide

/-- C3 amended: `gpu_score` always lies in [3, 25] (its two components give
at least 3 + 3), and an nvidia description with a non-empty renderer not
containing llvmpipe yields exactly 20 — 25 is unreachable since the
components sum to at most 20. -/
theorem gpu_score_range_nvidia (g r : String) :
    3 ≤ gpu_score g r ∧ gpu_score g r ≤ 25 ∧
    (containsSub (pyLower g) "nvidia" = true → r ≠ "" →
      containsSub (pyLower r) "llvmpipe" = false → gpu_score g r = 20) := by
  refine ⟨?_, ?_, fun hnv hr hlp => ?_⟩
  · simp only [gpu_score]; split_ifs <;> decide
  · simp only [gpu_score]; split_ifs <;> decide
  · simp [gpu_score, hnv, hr, hlp]

/-- Witness for C3's amended statement on a concrete nvidia adapter. -/
theorem gpu_score_range_nvidia_w :
    gpu_score "nvidia" "GeForce" = 20 :=
  (gpu_score_range_nvidia "nvidia" "GeForce").2.2 (by decide) (by decide) (by decide)

/-- C4 amended: a parse failure in a selected collector is not isolated to
that subsystem — the uncaught exception aborts the whole run, so no report
at all is produced (the CPU case directly, the RAM case when CPU is not
selected). -/
theorem parse_error_aborts_run (tests : List String) (env : Env) :
    ("cpu" ∈ tests → cpu_info env = .error () → mainRun tests env = .error ()) ∧
    ("ram" ∈ tests → "cpu" ∉ tests → ram_info env = .error () →
      mainRun tests env = .error ()) := by
  constructor
  · intro hm he
    have hne : tests ≠ [] := by rintro rfl; simp at hm
    simp [mainRun, hne, cpuStep, hm, he]
  · intro hm hnc he
    have hne : tests ≠ [] := by rintro rfl; simp at hm
    simp [mainRun, hne, cpuStep, ramStep, hm, hnc, he]

/-- Witness for C4's amended statement: runs whose CPU (resp. RAM)
collector fails to parse end in the error state. -/
theorem parse_error_aborts_run_w :
    mainRun ["cpu"] envBadCpu = .error () ∧ mainRun ["ram"] envW9 = .error () :=
  ⟨(parse_error_aborts_run ["cpu"] envBadCpu).1 (by decide) rfl,
   (parse_error_aborts_run ["ram"] envW9).2 (by decide) (by decide) rfl⟩

/-- C4 counterexample: with CPU and RAM selected, an absent CPU model line
crashes the whole run — the healthy RAM subsystem is not reported, contrary
to the claim that the run completes with the surviving subsystems. -/
theorem main_cpu_parse_failure_no_partial_report :
    mainRun ["cpu", "ram"] envBadCpu = .error () := rfl

/-- C5: with the CPU tool unavailable and installation declined,
`prepare_environment` returns false, yet `main` still invokes the CPU
collector (only the Disk block is gated on readiness), which here crashes
on the shell's not-found message instead of skipping the subsystem. -/
theorem main_runs_cpu_despite_not_ready :
    prepare_environment ["cpu"] envNF = (false, []) ∧
    mainRun ["cpu"] envNF = .error () := ⟨rfl, rfl⟩

/-- C2: in the end-to-end {CPU, RAM} scenario (8 cores at 3600 MHz, 16 GiB)
the total is 40 as claimed, but the suggestions are the GPU and Disk
upgrade tips, not the fallback tip: the untested subsystems keep score 0,
which fires their thresholds. -/
theorem main_cpu_ram_run_eval :
    mainRun ["cpu", "ram"] envC2 =
      .ok (some { report := ["CPU : Example CPU (20/25)", "RAM : 16.0 GB (20/20)"]
                  total := 40
                  tips := [gpuTip, diskTip] }) := by
  have hc : cpu_info envC2 = .ok ("Example CPU", 8, (3600 : ℚ)) := by
    rw [show cpu_info envC2 = .ok ("Example CPU", 8, (3600 : ℚ) + mkRat 0 10000) from rfl,
        show mkRat 0 10000 = (0 : ℚ) from by decide]
    norm_num
  have hround : pyRound1 (((16777216 : Int) : ℚ) / 1024 / 1024) = 16 := by
    unfold pyRound1 roundHalfEven
    rw [show (((16777216 : Int) : ℚ) / 1024 / 1024) * 10 = 160 by norm_num]
    norm_num
  have hr : ram_info envC2 = .ok (16 : ℚ) := by
    rw [show ram_info envC2 = .ok (pyRound1 (((16777216 : Int) : ℚ) / 1024 / 1024)) from rfl,
        hround]
  have hs1 : cpu_score 8 3600 = 20 := by decide
  have hs2 : ram_score 16 = 20 := by decide
  have hstr : ratStr1 16 = "16.0" := by
    unfold ratStr1
    rw [show (⌊(16 : ℚ) * 10⌋ : Int) = 160 by norm_num]
    decide
  simp only [mainRun, cpuStep, ramStep, gpuStep, diskStep, hc, hr, hs1, hs2, hstr]
  rfl
